import Mathlib

/-!
Verification of the Alicat flow-controller drivers of `liquid-line-testing`
(`src/drivers/alicat.py`, Modbus/binary transport, and
`src/drivers/alicat_serial.py`, ASCII/serial transport), shallowly embedded
in Lean 4.

Modelling conventions:
* Machine floats are treated at two levels.  The register codec
  (`_regs_to_float` / `_float_to_regs`) works on the raw 32-bit IEEE-754
  bit pattern, embedded as a `Nat` below `2^32`; the reinterpretation of a
  pattern as a numeric value is an abstract parameter `dec : Nat → ℚ`
  (and `enc : ℚ → Nat` for writes), so every statement is bit-exact and
  independent of floating-point arithmetic.  Driver-level numeric values
  (setpoints, telemetry, parsed ASCII numbers) are embedded as `ℚ`.
* The Modbus client (`pymodbus`) is external; it is modelled as a script:
  a list of `ModbusResponse`s consumed one per register exchange.  The
  serial port is modelled as an oracle `SCmd → String` giving the stripped
  response line for each framed command; the empty string models a read
  timeout (no response before the terminator).
* Python exceptions are modelled with `Except Err`; `RuntimeError("Not
  connected")` is `Err.notConnected`, `IOError` is `Err.ioError`,
  `TimeoutError` is `Err.timeout`, `ValueError` from parsing is
  `Err.parseError`, and a Python `IndexError` from indexing a too-short
  register list is `Err.indexError`.
* Each driver operation returns its result together with the post-state,
  the trace of transport calls it issued, and the log events it emitted
  through the injected logger.
-/

/-! ## Register codec (`src/drivers/alicat.py`, `_regs_to_float` / `_float_to_regs`) -/

/-- `_regs_to_float` at the bit level: `raw = (hi << 16) | lo`.  The
reinterpretation of `raw` as an IEEE-754 value is applied separately. -/
def regs_to_float (hi lo : Nat) : Nat := (hi <<< 16) ||| lo

/-- `_float_to_regs` at the bit level: split the 32-bit pattern into
`((raw >> 16) & 0xFFFF, raw & 0xFFFF)`. -/
def float_to_regs (raw : Nat) : Nat × Nat :=
  ((raw >>> 16) &&& 0xFFFF, raw &&& 0xFFFF)

/-- The IEEE-754 single-precision bit pattern of `22.0`
(sign 0, exponent `131`, mantissa `0.375`): `0x41B00000`. -/
def float22bits : Nat := 0x41B00000

/-! ## Python-style string helpers (used by the ASCII driver) -/

/-- Whitespace recognised by Python `str.split()` (the subset that can occur
in stripped serial responses). -/
def isPyWS (c : Char) : Bool := c == ' ' || c == '\t' || c == '\n' || c == '\r'

/-- Helper for `wsSplit`: accumulate the current (reversed) word. -/
def wsSplitAux : List Char → List Char → List (List Char)
  | [], acc => if acc.isEmpty then [] else [acc.reverse]
  | c :: cs, acc =>
    if isPyWS c then
      if acc.isEmpty then wsSplitAux cs [] else acc.reverse :: wsSplitAux cs []
    else wsSplitAux cs (c :: acc)

/-- Python `str.split()` with no arguments: split on runs of whitespace,
discarding empty fields. -/
def wsSplit (s : String) : List String :=
  (wsSplitAux s.data []).map List.asString

/-- Numeric value of a list of decimal digit characters. -/
def natOfDigits (l : List Char) : Nat :=
  l.foldl (fun a c => 10 * a + (c.toNat - 48)) 0

/-- Python `float()` on an unsigned decimal literal `digits[.digits]`
(the subset of `float()` syntax exercised by the Alicat protocol). -/
def parseUFloat (l : List Char) : Option ℚ :=
  match l.splitOn '.' with
  | [intp] =>
    if !intp.isEmpty && intp.all Char.isDigit then some (natOfDigits intp) else none
  | [intp, frac] =>
    if (!intp.isEmpty || !frac.isEmpty) && intp.all Char.isDigit && frac.all Char.isDigit
    then some ((natOfDigits intp : ℚ) + (natOfDigits frac : ℚ) / 10 ^ frac.length)
    else none
  | _ => none

/-- Python `float()` on a possibly signed decimal literal. -/
def parseFloat (s : String) : Option ℚ :=
  match s.data with
  | '-' :: rest => (parseUFloat rest).map Neg.neg
  | '+' :: rest => parseUFloat rest
  | l => parseUFloat l

/-- Python `int()` on a possibly signed decimal integer literal. -/
def parseInt (s : String) : Option Int :=
  match s.data with
  | '-' :: rest =>
    if !rest.isEmpty && rest.all Char.isDigit then some (-(natOfDigits rest : Int)) else none
  | '+' :: rest =>
    if !rest.isEmpty && rest.all Char.isDigit then some (natOfDigits rest : Int) else none
  | l =>
    if !l.isEmpty && l.all Char.isDigit then some (natOfDigits l : Int) else none

/-! ## Codec correctness -/

theorem regs_to_float_float_to_regs (raw : Nat) (h : raw < 2 ^ 32) :
    regs_to_float (float_to_regs raw).1 (float_to_regs raw).2 = raw := by
  unfold regs_to_float float_to_regs
  have e : (0xFFFF : Nat) = 2 ^ 16 - 1 := by norm_num
  apply Nat.eq_of_testBit_eq
  intro i
  rw [e]
  simp only [Nat.testBit_or, Nat.testBit_shiftLeft, Nat.testBit_shiftRight,
    Nat.and_pow_two_sub_one_eq_mod, Nat.testBit_mod_two_pow]
  by_cases h16 : i < 16
  · have : ¬ (16 ≤ i) := by omega
    simp [this, h16]
  · have h16' : 16 ≤ i := by omega
    by_cases h32 : i < 32
    · have hsub : i - 16 < 16 := by omega
      have hidx : 16 + (i - 16) = i := by omega
      simp [h16', hsub, h16, hidx]
    · have hhi : raw.testBit i = false := by
        apply Nat.testBit_lt_two_pow
        calc raw < 2 ^ 32 := h
        _ ≤ 2 ^ i := Nat.pow_le_pow_right (by norm_num) (by omega)
      have hsub : ¬ (i - 16 < 16) := by omega
      simp [h16', hsub, h16, hhi]

/-! ## Shared data model -/

/-- Driver error kinds (Python exception classes, see module doc). -/
inductive Err
  | notConnected
  | ioError
  | timeout
  | parseError
  | indexError
deriving DecidableEq, Repr

/-- Log levels of the injected logger. -/
inductive LogLevel
  | debug
  | info
  | warning
  | error
deriving DecidableEq, Repr

/-- Log events emitted by the modelled driver operations, one constructor per
logging site (the formatted message text is abstracted away). -/
inductive LogEv
  | debugDummySetpoint (v : ℚ)
  | warnFlowRange (v : ℚ)
  | debugSetpointSet (v : ℚ)
  | warnGainSetFailed (slot : Nat)
  | debugGainSet (slot : Nat) (v : Int)
  | errReading
  | errReadingPid
  | infoDummySetpoint (v : ℚ)
  | infoSetpointSet (v : ℚ)
  | errSetFlow
  | infoDummyPressure (v : ℚ)
  | infoPressureSet (v : ℚ)
  | errSetPressure
  | infoDummyGas
  | infoGasSet
  | errSetGas
  | infoGainSet (slot : Nat) (v : Int)
  | errSetPid
deriving DecidableEq, Repr

/-- Level of each log event. -/
def LogEv.level : LogEv → LogLevel
  | .warnFlowRange _ | .warnGainSetFailed _ => .warning
  | .errReading | .errReadingPid | .errSetFlow | .errSetPressure
  | .errSetGas | .errSetPid => .error
  | .infoDummySetpoint _ | .infoSetpointSet _ | .infoDummyPressure _
  | .infoPressureSet _ | .infoDummyGas | .infoGasSet | .infoGainSet _ _ => .info
  | .debugDummySetpoint _ | .debugSetpointSet _ | .debugGainSet _ _ => .debug

/-- PID gains result (`{"P": …, "D": …, "I": …}`). -/
structure PIDGains where
  P : Int
  D : Int
  I : Int
deriving DecidableEq, Repr

/-- Telemetry dictionary returned by `read` (without the optional PID keys). -/
structure Telemetry where
  connected : Bool
  setpoint : ℚ
  valve_drive : ℚ
  pressure : ℚ
  temperature : ℚ
  volumetric_flow : ℚ
  mass_flow : ℚ
deriving DecidableEq, Repr

/-- Full result of `read`: the telemetry dictionary, plus the PID keys merged
in when `include_pid` was set. -/
structure ReadResult where
  telemetry : Telemetry
  pid : Option PIDGains
deriving DecidableEq, Repr

/-- Result of `set_pid`: `{"status": "ok"}` plus the gains recorded in the
result dictionary. -/
structure SetPidRes where
  P : Option Int
  D : Option Int
  I : Option Int
deriving DecidableEq, Repr

/-- The unordered field map handed to `write` (`data` in the source); every
recognised key is an optional field, `none` meaning the key is absent. -/
structure WData where
  setpoint : Option ℚ
  pressure : Option ℚ
  gas : Option (String ⊕ Int)
  P : Option Int
  D : Option Int
  I : Option Int

/-- Result of `write`, tagged by which setter actually executed.
`setp v` is `{"status": "ok", "setpoint": v}`; `noOp` is
`{"status": "no_op", …}`. -/
inductive WriteRes
  | setp (v : ℚ)
  | pres (v : ℚ)
  | gas (g : String ⊕ Int)
  | pid (r : SetPidRes)
  | noOp
deriving DecidableEq

/-! ## Binary (Modbus TCP) transport model -/

/-- A pymodbus register-exchange response: error flag and register words. -/
structure ModbusResponse where
  isError : Bool
  registers : List Nat
deriving DecidableEq, Repr

/-- A register exchange issued to the Modbus client. -/
inductive MCall
  | readInput (address count : Nat)
  | readHolding (address count : Nat)
  | writeRegs (address : Nat) (values : List Int)
deriving DecidableEq, Repr

/-- State of an `Alicat` driver instance: `cli` is `none` when no client is
held (before `initialize` / after `close`), otherwise the script of responses
the external Modbus client will produce, one per exchange. -/
structure AlicatSt where
  cli : Option (List ModbusResponse)
  connected : Bool
  dummy : Bool

/-- Outcome of one binary-driver operation: Python return value or raised
exception, post-state, transport calls issued, and log events emitted. -/
structure MOut (α : Type) where
  result : Except Err α
  state : AlicatSt
  trace : List MCall
  logs : List LogEv

/-- Pop the next scripted response; an exhausted script behaves as a client
that reports an error on every further exchange. -/
def popResp : List ModbusResponse → ModbusResponse × List ModbusResponse
  | [] => (⟨true, []⟩, [])
  | r :: rest => (r, rest)

namespace Alicat

/-- Register constants from `src/drivers/alicat.py`. -/
def REG_SETPOINT_F32 : Nat := 1349

def REG_VALVEDRIVE_F32 : Nat := 1351

def REG_PRESSURE_F32 : Nat := 1353

def REG_TEMPERATURE_F32 : Nat := 1359

def REG_VOL_FLOW_F32 : Nat := 1361

def REG_MASS_FLOW_F32 : Nat := 1363

def BLOCK_START : Nat := 1349

def BLOCK_LEN : Nat := 16

def REG_PAIR_LEN : Nat := 2

def SETPOINT_MIN : ℚ := 0

def SETPOINT_MAX : ℚ := 1000

/-- `Alicat._read_input_f32`: one FC4 pair read, decoded through the codec.
`dec` is the abstract bit-pattern-to-value reinterpretation. -/
def read_input_f32 (dec : Nat → ℚ) (st : AlicatSt) (address : Nat) : MOut ℚ :=
  match st.cli with
  | none => ⟨.error .notConnected, st, [], []⟩
  | some script =>
    let (rr, rest) := popResp script
    let st' : AlicatSt := { st with cli := some rest }
    let call := MCall.readInput address REG_PAIR_LEN
    if rr.isError then ⟨.error .ioError, st', [call], []⟩
    else
      match rr.registers.get? 0, rr.registers.get? 1 with
      | some a, some b => ⟨.ok (dec (regs_to_float a b)), st', [call], []⟩
      | _, _ => ⟨.error .indexError, st', [call], []⟩

/-- `Alicat._read_holding_f32`: one FC3 pair read. -/
def read_holding_f32 (dec : Nat → ℚ) (st : AlicatSt) (address : Nat) : MOut ℚ :=
  match st.cli with
  | none => ⟨.error .notConnected, st, [], []⟩
  | some script =>
    let (rr, rest) := popResp script
    let st' : AlicatSt := { st with cli := some rest }
    let call := MCall.readHolding address REG_PAIR_LEN
    if rr.isError then ⟨.error .ioError, st', [call], []⟩
    else
      match rr.registers.get? 0, rr.registers.get? 1 with
      | some a, some b => ⟨.ok (dec (regs_to_float a b)), st', [call], []⟩
      | _, _ => ⟨.error .indexError, st', [call], []⟩

/-- `Alicat._write_holding_f32`: one FC16 pair write of the encoded value.
`enc` is the abstract value-to-bit-pattern function. -/
def write_holding_f32 (enc : ℚ → Nat) (st : AlicatSt) (address : Nat) (value : ℚ) :
    MOut Unit :=
  match st.cli with
  | none => ⟨.error .notConnected, st, [], []⟩
  | some script =>
    let (wr, rest) := popResp script
    let st' : AlicatSt := { st with cli := some rest }
    let hi := (float_to_regs (enc value)).1
    let lo := (float_to_regs (enc value)).2
    let call := MCall.writeRegs address [(hi : Int), (lo : Int)]
    if wr.isError then ⟨.error .ioError, st', [call], []⟩
    else ⟨.ok (), st', [call], []⟩

end Alicat

namespace Alicat

/-- Decode the float pair at word offset `idx` of a register block
(`f32` in `Alicat.read`); `none` models the `IndexError` Python raises when
the block is shorter than expected. -/
def f32At (r : List Nat) (idx : Nat) : Option Nat :=
  match r.get? idx, r.get? (idx + 1) with
  | some a, some b => some (regs_to_float a b)
  | _, _ => none

/-- The per-gain expression of `Alicat.read_pid`:
`result.registers[0] if not result.isError() else 0`. -/
def gainExpr (result : ModbusResponse) : Except Err Int :=
  if !result.isError then
    match result.registers.get? 0 with
    | some v => .ok (v : Int)
    | none => .error .indexError
  else .ok 0

/-- `Alicat.read_pid`: three select-then-read exchanges (`[14, slot]` to
register 999, then one word from register 1000), each gain degrading to `0`
when its read reports an error; the select-write responses are ignored. -/
def read_pid (st : AlicatSt) : MOut PIDGains :=
  if st.dummy then ⟨.ok ⟨50, 120, 0⟩, st, [], []⟩
  else
    match st.cli with
    | none => ⟨.error .notConnected, st, [], []⟩
    | some script =>
      let sel : Nat → MCall := fun slot => MCall.writeRegs 999 [14, (slot : Int)]
      let rd : MCall := MCall.readInput 1000 1
      let (_, s1) := popResp script
      let (r0, s2) := popResp s1
      match gainExpr r0 with
      | .error e => ⟨.error e, { st with cli := some s2 }, [sel 0, rd], []⟩
      | .ok p =>
        let (_, s3) := popResp s2
        let (r1, s4) := popResp s3
        match gainExpr r1 with
        | .error e => ⟨.error e, { st with cli := some s4 }, [sel 0, rd, sel 1, rd], []⟩
        | .ok d =>
          let (_, s5) := popResp s4
          let (r2, s6) := popResp s5
          match gainExpr r2 with
          | .error e =>
            ⟨.error e, { st with cli := some s6 }, [sel 0, rd, sel 1, rd, sel 2, rd], []⟩
          | .ok i =>
            ⟨.ok ⟨p, d, i⟩, { st with cli := some s6 },
              [sel 0, rd, sel 1, rd, sel 2, rd], []⟩

/-- `Alicat.read`: dummy short-circuit, else one 16-word block read decoded
at word offsets 0, 2, 4, 10, 12, 14, optionally followed by `read_pid`. -/
def read (dec : Nat → ℚ) (st : AlicatSt) (include_pid : Bool) : MOut ReadResult :=
  if st.dummy then
    ⟨.ok ⟨⟨true, 22, 27, 8.92, 306, 21, 23⟩, none⟩, st, [], []⟩
  else
    match st.cli with
    | none => ⟨.error .notConnected, st, [], []⟩
    | some script =>
      let (rr, rest) := popResp script
      let st' : AlicatSt := { st with cli := some rest }
      let call := MCall.readInput BLOCK_START BLOCK_LEN
      if rr.isError then ⟨.error .ioError, st', [call], []⟩
      else
        let r := rr.registers
        match f32At r 0, f32At r 2, f32At r 4, f32At r 10, f32At r 12, f32At r 14 with
        | some sp, some vd, some pr, some te, some vf, some mf =>
          let tel : Telemetry :=
            ⟨st.connected, dec sp, dec vd, dec pr, dec te, dec vf, dec mf⟩
          if include_pid then
            let pidOut := read_pid st'
            match pidOut.result with
            | .ok g => ⟨.ok ⟨tel, some g⟩, pidOut.state, call :: pidOut.trace, pidOut.logs⟩
            | .error e => ⟨.error e, pidOut.state, call :: pidOut.trace, pidOut.logs⟩
          else ⟨.ok ⟨tel, none⟩, st', [call], []⟩
        | _, _, _, _, _, _ => ⟨.error .indexError, st', [call], []⟩

/-- `Alicat.read_setpoint`: single FC3 pair read of the setpoint register. -/
def read_setpoint (dec : Nat → ℚ) (st : AlicatSt) : MOut ℚ :=
  read_holding_f32 dec st REG_SETPOINT_F32

/-- `Alicat.read_mass_flow`. -/
def read_mass_flow (dec : Nat → ℚ) (st : AlicatSt) : MOut ℚ :=
  read_input_f32 dec st REG_MASS_FLOW_F32

/-- `Alicat.read_pressure`. -/
def read_pressure (dec : Nat → ℚ) (st : AlicatSt) : MOut ℚ :=
  read_input_f32 dec st REG_PRESSURE_F32

/-- `Alicat.read_temperature`. -/
def read_temperature (dec : Nat → ℚ) (st : AlicatSt) : MOut ℚ :=
  read_input_f32 dec st REG_TEMPERATURE_F32

/-- `Alicat.set_flow_rate`: dummy short-circuit; otherwise warn (only) when
the value is outside `[SETPOINT_MIN, SETPOINT_MAX]`, write the register pair,
and acknowledge with the requested value. -/
def set_flow_rate (enc : ℚ → Nat) (st : AlicatSt) (flow_rate : ℚ) : MOut ℚ :=
  if st.dummy then ⟨.ok flow_rate, st, [], [.debugDummySetpoint flow_rate]⟩
  else
    let rangeLogs : List LogEv :=
      if SETPOINT_MIN ≤ flow_rate ∧ flow_rate ≤ SETPOINT_MAX then []
      else [.warnFlowRange flow_rate]
    let w := write_holding_f32 enc st REG_SETPOINT_F32 flow_rate
    match w.result with
    | .ok _ => ⟨.ok flow_rate, w.state, w.trace, rangeLogs ++ [.debugSetpointSet flow_rate]⟩
    | .error e => ⟨.error e, w.state, w.trace, rangeLogs⟩

/-- One gain step of `Alicat.set_pid`: if the gain is provided, write
`[code, value]` to register 999; a failed write is logged and the gain left
out of the result set, a successful one is logged and recorded. -/
def setPidStep (s : List ModbusResponse) (g : Option Int) (code : Nat) :
    List ModbusResponse × List MCall × List LogEv × Option Int :=
  match g with
  | none => (s, [], [], none)
  | some v =>
    let (wr, rest) := popResp s
    let call := MCall.writeRegs 999 [(code : Int), v]
    if wr.isError then (rest, [call], [.warnGainSetFailed code], none)
    else (rest, [call], [.debugGainSet code v], some v)

/-- `Alicat.set_pid`: dummy short-circuit (result echoes the arguments);
otherwise one guarded write per provided gain (codes 8, 9, 10). -/
def set_pid (st : AlicatSt) (P D I : Option Int) : MOut SetPidRes :=
  if st.dummy then ⟨.ok ⟨P, D, I⟩, st, [], []⟩
  else
    match st.cli with
    | none => ⟨.error .notConnected, st, [], []⟩
    | some script =>
      let (s1, t1, l1, rp) := setPidStep script P 8
      let (s2, t2, l2, rd) := setPidStep s1 D 9
      let (s3, t3, l3, ri) := setPidStep s2 I 10
      ⟨.ok ⟨rp, rd, ri⟩, { st with cli := some s3 }, t1 ++ t2 ++ t3, l1 ++ l2 ++ l3⟩

/-- `Alicat.write`: keyed dispatch — `"setpoint"` first, then any of
`"P"`/`"D"`/`"I"`, else a no-op result. -/
def write (enc : ℚ → Nat) (st : AlicatSt) (data : WData) : MOut WriteRes :=
  match data.setpoint with
  | some v =>
    let o := set_flow_rate enc st v
    ⟨o.result.map .setp, o.state, o.trace, o.logs⟩
  | none =>
    if data.P.isSome || data.D.isSome || data.I.isSome then
      let o := set_pid st data.P data.D data.I
      ⟨o.result.map .pid, o.state, o.trace, o.logs⟩
    else ⟨.ok .noOp, st, [], []⟩

/-- `Alicat.close`: drop the client and clear the connected flag. -/
def close (st : AlicatSt) : AlicatSt := { st with cli := none, connected := false }

end Alicat

/-! ## ASCII (serial) transport model -/

/-- A framed serial command body (`AlicatSerial._command`'s `cmd` argument,
in structured form; the string rendering — `""`, `S{v:.4f}`, `P{v:.4f}`,
`G{n}`, `R{n}`, `W{n}={v}` — is a bijective presentation detail). -/
inductive SCmd
  | status
  | setp (v : ℚ)
  | pres (v : ℚ)
  | gasSel (code : Int)
  | readReg (n : Nat)
  | writeReg (n : Nat) (v : Int)
deriving DecidableEq, Repr

/-- State of an `AlicatSerial` driver instance: `ser` is `none` when no port
is held; otherwise the device is an oracle giving the stripped response line
for each command (`""` models a read timeout). -/
structure SerialSt where
  ser : Option (SCmd → String)
  connected : Bool
  dummy : Bool

/-- Outcome of one serial-driver operation. -/
structure SOut (α : Type) where
  result : Except Err α
  state : SerialSt
  trace : List SCmd
  logs : List LogEv

/-- Parsed status line (`AlicatSerial._parse_status_response` result). -/
structure StatusData where
  pressure : ℚ
  temperature : ℚ
  volumetric_flow : ℚ
  mass_flow : ℚ
  setpoint : ℚ
  gas : String
deriving DecidableEq, Repr

namespace AlicatSerial

/-- `AlicatSerial.GAS_TABLE`: gas name → integer code. -/
def GAS_TABLE (s : String) : Option Nat :=
  if s = "Air" then some 0 else if s = "Ar" then some 1
  else if s = "CH4" then some 2 else if s = "CO" then some 3
  else if s = "CO2" then some 4 else if s = "C2H6" then some 5
  else if s = "H2" then some 6 else if s = "He" then some 7
  else if s = "N2" then some 8 else if s = "N2O" then some 9
  else if s = "Ne" then some 10 else if s = "O2" then some 11
  else if s = "C3H8" then some 12 else if s = "SF6" then some 13
  else if s = "C4H10" then some 14 else if s = "C2H2" then some 15
  else if s = "C2H4" then some 16 else if s = "NH3" then some 18
  else if s = "Kr" then some 20 else if s = "Xe" then some 21
  else if s = "CF4" then some 25 else none

/-- `AlicatSerial._command`: raise `NotConnected` when no port is held
(before anything is written); otherwise write the framed command and read the
response; an empty response raises `TimeoutError`. -/
def command (st : SerialSt) (cmd : SCmd) : Except Err String × List SCmd :=
  match st.ser with
  | none => (.error .notConnected, [])
  | some dev =>
    let response := dev cmd
    if response = "" then (.error .timeout, [cmd]) else (.ok response, [cmd])

/-- `AlicatSerial._parse_status_response`: split on whitespace, require at
least 7 fields (else `ValueError`), then convert fields 1–5 with `float()`
and take field 6 as the gas name. -/
def parse_status_response (response : String) : Except Err StatusData :=
  let parts := wsSplit response
  if parts.length < 7 then .error .parseError
  else
    match parseFloat (parts.getD 1 ""), parseFloat (parts.getD 2 ""),
        parseFloat (parts.getD 3 ""), parseFloat (parts.getD 4 ""),
        parseFloat (parts.getD 5 "") with
    | some pr, some te, some vf, some mf, some sp =>
      .ok ⟨pr, te, vf, mf, sp, if parts.length > 6 then parts.getD 6 "" else "Unknown"⟩
    | _, _, _, _, _ => .error .parseError

/-- The per-gain expression of `AlicatSerial._read_pid_unlocked`:
`int(resp.split()[1]) if len(resp.split()) > 1 else 0`; a non-integer second
field raises `ValueError` (caught by the enclosing handler). -/
def gainOf (resp : String) : Except Err Int :=
  let parts := wsSplit resp
  if parts.length > 1 then
    match parseInt (parts.getD 1 "") with
    | some n => .ok n
    | none => .error .parseError
  else .ok 0

/-- `AlicatSerial._read_pid_unlocked`: issue `R21`, `R22`, `R23`, then parse
the three responses; any raised exception anywhere in the sequence is caught
and turns the whole result into `{P: 0, D: 0, I: 0}` (logged as an error). -/
def read_pid_unlocked (st : SerialSt) : PIDGains × List SCmd × List LogEv :=
  let (pr, t1) := command st (.readReg 21)
  match pr with
  | .error _ => (⟨0, 0, 0⟩, t1, [.errReadingPid])
  | .ok ps =>
    let (dr, t2) := command st (.readReg 22)
    match dr with
    | .error _ => (⟨0, 0, 0⟩, t1 ++ t2, [.errReadingPid])
    | .ok ds =>
      let (ir, t3) := command st (.readReg 23)
      match ir with
      | .error _ => (⟨0, 0, 0⟩, t1 ++ t2 ++ t3, [.errReadingPid])
      | .ok is_ =>
        match gainOf ps, gainOf ds, gainOf is_ with
        | .ok p, .ok d, .ok i => (⟨p, d, i⟩, t1 ++ t2 ++ t3, [])
        | _, _, _ => (⟨0, 0, 0⟩, t1 ++ t2 ++ t3, [.errReadingPid])

/-- `AlicatSerial.read`: dummy short-circuit, else one status command parsed
into the telemetry dictionary (`valve_drive` fixed at `0.0`), optionally
followed by the PID queries; any failure logs, sets `connected = False`,
and re-raises. -/
def read (st : SerialSt) (include_pid : Bool) : SOut ReadResult :=
  if st.dummy then
    ⟨.ok ⟨⟨true, 22, 27, 8.92, 23.5, 22, 23⟩, none⟩, st, [], []⟩
  else
    let (r, tr) := command st .status
    match r with
    | .error e => ⟨.error e, { st with connected := false }, tr, [.errReading]⟩
    | .ok resp =>
      match parse_status_response resp with
      | .error e => ⟨.error e, { st with connected := false }, tr, [.errReading]⟩
      | .ok data =>
        let tel : Telemetry :=
          ⟨st.connected, data.setpoint, 0, data.pressure, data.temperature,
            data.volumetric_flow, data.mass_flow⟩
        if include_pid then
          let (g, tr2, lg) := read_pid_unlocked st
          ⟨.ok ⟨tel, some g⟩, st, tr ++ tr2, lg⟩
        else ⟨.ok ⟨tel, none⟩, st, tr, []⟩

/-- `AlicatSerial.read_pid`: dummy short-circuit, else the (never-raising)
unlocked PID read. -/
def read_pid (st : SerialSt) : SOut PIDGains :=
  if st.dummy then ⟨.ok ⟨50, 120, 0⟩, st, [], []⟩
  else
    let (g, tr, lg) := read_pid_unlocked st
    ⟨.ok g, st, tr, lg⟩

/-- `AlicatSerial.set_flow_rate`: dummy short-circuit, else one setpoint
command; failure logs and re-raises, success acknowledges the requested
value.  (No range check exists on this transport.) -/
def set_flow_rate (st : SerialSt) (flow_rate : ℚ) : SOut ℚ :=
  if st.dummy then ⟨.ok flow_rate, st, [], [.infoDummySetpoint flow_rate]⟩
  else
    let (r, tr) := command st (.setp flow_rate)
    match r with
    | .ok _ => ⟨.ok flow_rate, st, tr, [.infoSetpointSet flow_rate]⟩
    | .error e => ⟨.error e, st, tr, [.errSetFlow]⟩

/-- `AlicatSerial.set_pressure`. -/
def set_pressure (st : SerialSt) (pressure : ℚ) : SOut ℚ :=
  if st.dummy then ⟨.ok pressure, st, [], [.infoDummyPressure pressure]⟩
  else
    let (r, tr) := command st (.pres pressure)
    match r with
    | .ok _ => ⟨.ok pressure, st, tr, [.infoPressureSet pressure]⟩
    | .error e => ⟨.error e, st, tr, [.errSetPressure]⟩

/-- `AlicatSerial.set_gas`: resolve a symbolic name through `GAS_TABLE`
(unknown names default to code 0) or take a numeric code directly. -/
def set_gas (st : SerialSt) (gas_type : String ⊕ Int) : SOut (String ⊕ Int) :=
  if st.dummy then ⟨.ok gas_type, st, [], [.infoDummyGas]⟩
  else
    let gas_num : Int :=
      match gas_type with
      | .inl s => ((GAS_TABLE s).getD 0 : Nat)
      | .inr n => n
    let (r, tr) := command st (.gasSel gas_num)
    match r with
    | .ok _ => ⟨.ok gas_type, st, tr, [.infoGasSet]⟩
    | .error e => ⟨.error e, st, tr, [.errSetGas]⟩

/-- `AlicatSerial.set_pid`: dummy short-circuit (result echoes the
arguments); else one `W2x=v` command per provided gain, aborting the whole
call on the first failure (strict, unlike the PID read path). -/
def set_pid (st : SerialSt) (P D I : Option Int) : SOut SetPidRes :=
  if st.dummy then ⟨.ok ⟨P, D, I⟩, st, [], []⟩
  else
    let stepP : Except Err (Option Int) × List SCmd × List LogEv :=
      match P with
      | none => (.ok none, [], [])
      | some p =>
        let (r, tr) := command st (.writeReg 21 p)
        match r with
        | .ok _ => (.ok (some p), tr, [.infoGainSet 21 p])
        | .error e => (.error e, tr, [])
    match stepP with
    | (.error e, tr, _) => ⟨.error e, st, tr, [.errSetPid]⟩
    | (.ok rp, tr1, lg1) =>
      let stepD : Except Err (Option Int) × List SCmd × List LogEv :=
        match D with
        | none => (.ok none, [], [])
        | some d =>
          let (r, tr) := command st (.writeReg 22 d)
          match r with
          | .ok _ => (.ok (some d), tr, [.infoGainSet 22 d])
          | .error e => (.error e, tr, [])
      match stepD with
      | (.error e, tr, _) => ⟨.error e, st, tr1 ++ tr, lg1 ++ [.errSetPid]⟩
      | (.ok rd, tr2, lg2) =>
        let stepI : Except Err (Option Int) × List SCmd × List LogEv :=
          match I with
          | none => (.ok none, [], [])
          | some i =>
            let (r, tr) := command st (.writeReg 23 i)
            match r with
            | .ok _ => (.ok (some i), tr, [.infoGainSet 23 i])
            | .error e => (.error e, tr, [])
        match stepI with
        | (.error e, tr, _) => ⟨.error e, st, tr1 ++ tr2 ++ tr, lg1 ++ lg2 ++ [.errSetPid]⟩
        | (.ok ri, tr3, lg3) =>
          ⟨.ok ⟨rp, rd, ri⟩, st, tr1 ++ tr2 ++ tr3, lg1 ++ lg2 ++ lg3⟩

/-- `AlicatSerial.write`: keyed dispatch — `"setpoint"`, then `"pressure"`,
then `"gas"`, then any of `"P"`/`"D"`/`"I"`, else a no-op result. -/
def write (st : SerialSt) (data : WData) : SOut WriteRes :=
  match data.setpoint with
  | some v =>
    let o := set_flow_rate st v
    ⟨o.result.map .setp, o.state, o.trace, o.logs⟩
  | none =>
    match data.pressure with
    | some v =>
      let o := set_pressure st v
      ⟨o.result.map .pres, o.state, o.trace, o.logs⟩
    | none =>
      match data.gas with
      | some g =>
        let o := set_gas st g
        ⟨o.result.map .gas, o.state, o.trace, o.logs⟩
      | none =>
        if data.P.isSome || data.D.isSome || data.I.isSome then
          let o := set_pid st data.P data.D data.I
          ⟨o.result.map .pid, o.state, o.trace, o.logs⟩
        else ⟨.ok .noOp, st, [], []⟩

/-- `AlicatSerial.close`: drop the port and clear the connected flag. -/
def close (st : SerialSt) : SerialSt := { st with ser := none, connected := false }

end AlicatSerial

/-! ## Supporting definitions for the claim statements -/

/-- Decidable equality for `Except` results. -/
def exceptDecEq {ε α : Type} [DecidableEq ε] [DecidableEq α] : DecidableEq (Except ε α) :=
  fun x y =>
  match x, y with
  | .ok a, .ok b =>
    if h : a = b then .isTrue (by rw [h]) else
      .isFalse (by intro hh; injection hh; contradiction)
  | .error a, .error b =>
    if h : a = b then .isTrue (by rw [h]) else
      .isFalse (by intro hh; injection hh; contradiction)
  | .ok _, .error _ => .isFalse (by intro hh; exact Except.noConfusion hh)
  | .error _, .ok _ => .isFalse (by intro hh; exact Except.noConfusion hh)

instance {ε α : Type} [DecidableEq ε] [DecidableEq α] : DecidableEq (Except ε α) :=
  exceptDecEq

/-- The decoded float pair stored at addresses `a`, `a + 1` of a register
image. -/
def pairAt (image : Nat → Nat) (a : Nat) : Nat := regs_to_float (image a) (image (a + 1))

/-- The response an image-backed device gives to the 16-word block read. -/
def blockResp (image : Nat → Nat) : ModbusResponse :=
  ⟨false, (List.range Alicat.BLOCK_LEN).map fun k => image (Alicat.BLOCK_START + k)⟩

/-- The response an image-backed device gives to a single-pair read at `a`. -/
def pairResp (image : Nat → Nat) (a : Nat) : ModbusResponse :=
  ⟨false, [image a, image (a + 1)]⟩

/-- A successful (non-error) write acknowledgement response. -/
def okResp : ModbusResponse := ⟨false, []⟩

/-- A serial device that answers every command with a non-empty line. -/
def liveDev : SCmd → String := fun _ => "A"

/-- A serial device that never answers (every read times out). -/
def deadDev : SCmd → String := fun _ => ""

/-- A serial device whose `R22` (D-gain) exchange times out while `R21` and
`R23` answer with parseable gain values 7 and 9. -/
def failDDev : SCmd → String := fun c =>
  if c = .readReg 22 then "" else if c = .readReg 23 then "A 9" else "A 7"

/-- A serial device whose `R22` (D-gain) response is malformed (a single
field) while `R21` and `R23` answer with parseable gain values 7 and 9. -/
def malformedDDev : SCmd → String := fun c =>
  if c = .readReg 22 then "X" else if c = .readReg 23 then "A 9" else "A 7"

/-- An arbitrary concrete bit-pattern encoder for statements that need a
closed one. -/
def zeroEnc : ℚ → Nat := fun _ => 0

/-- True when no emitted log event has warning level. -/
def noWarnings (l : List LogEv) : Bool := l.all fun e => !(e.level == LogLevel.warning)

/-- The example ASCII status line from the specification. -/
def statusExample : String := "A 8.920 306.00 21.00 23.00 22.0000 Air"

/-! ## Claim theorems -/

/-- C1: decoding the result of encoding any representable 32-bit value is
bit-for-bit the identity: for every 32-bit pattern `raw`,
`regs_to_float` applied to the two 16-bit words of `float_to_regs raw`
returns `raw`; in particular the pattern of `22.0` (`0x41B00000`) encodes to
`(0x41B0, 0x0000)` and that pair decodes back to the pattern of `22.0`. -/
theorem C1_codec_roundtrip :
    (∀ raw : Nat, raw < 2 ^ 32 →
      regs_to_float (float_to_regs raw).1 (float_to_regs raw).2 = raw) ∧
    float_to_regs float22bits = (0x41B0, 0x0000) ∧
    regs_to_float 0x41B0 0x0000 = float22bits :=
  ⟨regs_to_float_float_to_regs, by decide, by decide⟩

/-- C1 witness: the round trip evaluated at the bit pattern of `22.0`. -/
theorem C1_codec_roundtrip_witness :
    regs_to_float (float_to_regs float22bits).1 (float_to_regs float22bits).2 = float22bits :=
  C1_codec_roundtrip.1 float22bits (by decide)

/-- C8: the ASCII status parser maps the seven-field example line to
pressure 8.920, temperature 306.00, volumetric flow 21.00, mass flow 23.00,
setpoint 22.0000, gas "Air"; and every response whose whitespace split has
fewer than seven fields fails with a parse error. -/
theorem C8_status_parse :
    AlicatSerial.parse_status_response statusExample =
      .ok ⟨8.92, 306, 21, 23, 22, "Air"⟩ ∧
    ∀ response : String, (wsSplit response).length < 7 →
      AlicatSerial.parse_status_response response = .error .parseError := by
  constructor
  · have h : AlicatSerial.parse_status_response statusExample =
        .ok ⟨(8 : ℚ) + 920 / 10 ^ 3, (306 : ℚ) + 0 / 10 ^ 2, (21 : ℚ) + 0 / 10 ^ 2,
          (23 : ℚ) + 0 / 10 ^ 2, (22 : ℚ) + 0 / 10 ^ 4, "Air"⟩ := rfl
    rw [h]
    norm_num
  · intro response h
    unfold AlicatSerial.parse_status_response
    rw [if_pos h]

/-- C8 witness: the short-line rejection evaluated at the three-field line
`"A 1 2"`. -/
theorem C8_status_parse_witness :
    AlicatSerial.parse_status_response "A 1 2" = .error .parseError :=
  C8_status_parse.2 "A 1 2" (by decide)

/-- C9: with simulation (dummy) mode active, `read(include_pid=false)` on
either driver returns its fixed synthetic reading with `connected = true`,
leaves the state untouched, and issues no transport call at all, whatever
client/port (if any) is held and whatever the connected flag says. -/
theorem C9_dummy_read :
    (∀ (dec : Nat → ℚ) (cli : Option (List ModbusResponse)) (conn : Bool),
      Alicat.read dec ⟨cli, conn, true⟩ false =
        ⟨.ok ⟨⟨true, 22, 27, 8.92, 306, 21, 23⟩, none⟩, ⟨cli, conn, true⟩, [], []⟩) ∧
    (∀ (ser : Option (SCmd → String)) (conn : Bool),
      AlicatSerial.read ⟨ser, conn, true⟩ false =
        ⟨.ok ⟨⟨true, 22, 27, 8.92, 23.5, 22, 23⟩, none⟩, ⟨ser, conn, true⟩, [], []⟩) :=
  ⟨fun _ _ _ => rfl, fun _ _ => rfl⟩

/-- C10 (implicit): with dummy mode active, every public operation returns
its fixed synthetic success result even though no client/port is held
(`initialize` never ran, or `close` ran), with no transport call — the dummy
branch precedes the connected-state guard. -/
theorem C10_dummy_bypasses_guard :
    (∀ (dec : Nat → ℚ) (b : Bool),
      (Alicat.read dec ⟨none, false, true⟩ b).result =
        .ok ⟨⟨true, 22, 27, 8.92, 306, 21, 23⟩, none⟩ ∧
      (Alicat.read dec ⟨none, false, true⟩ b).trace = []) ∧
    (∀ (enc : ℚ → Nat) (v : ℚ),
      Alicat.set_flow_rate enc ⟨none, false, true⟩ v =
        ⟨.ok v, ⟨none, false, true⟩, [], [.debugDummySetpoint v]⟩) ∧
    Alicat.read_pid ⟨none, false, true⟩ =
      ⟨.ok ⟨50, 120, 0⟩, ⟨none, false, true⟩, [], []⟩ ∧
    (∀ P D I : Option Int,
      Alicat.set_pid ⟨none, false, true⟩ P D I =
        ⟨.ok ⟨P, D, I⟩, ⟨none, false, true⟩, [], []⟩) ∧
    (∀ (enc : ℚ → Nat) (v : ℚ) (pr : Option ℚ) (g : Option (String ⊕ Int))
        (P D I : Option Int),
      (Alicat.write enc ⟨none, false, true⟩ ⟨some v, pr, g, P, D, I⟩).result =
        .ok (.setp v) ∧
      (Alicat.write enc ⟨none, false, true⟩ ⟨some v, pr, g, P, D, I⟩).trace = []) ∧
    (∀ b : Bool,
      (AlicatSerial.read ⟨none, false, true⟩ b).result =
        .ok ⟨⟨true, 22, 27, 8.92, 23.5, 22, 23⟩, none⟩ ∧
      (AlicatSerial.read ⟨none, false, true⟩ b).trace = []) ∧
    (∀ v : ℚ,
      AlicatSerial.set_flow_rate ⟨none, false, true⟩ v =
        ⟨.ok v, ⟨none, false, true⟩, [], [.infoDummySetpoint v]⟩) ∧
    AlicatSerial.read_pid ⟨none, false, true⟩ =
      ⟨.ok ⟨50, 120, 0⟩, ⟨none, false, true⟩, [], []⟩ ∧
    (∀ P D I : Option Int,
      AlicatSerial.set_pid ⟨none, false, true⟩ P D I =
        ⟨.ok ⟨P, D, I⟩, ⟨none, false, true⟩, [], []⟩) ∧
    (∀ (v : ℚ) (pr : Option ℚ) (g : Option (String ⊕ Int)) (P D I : Option Int),
      (AlicatSerial.write ⟨none, false, true⟩ ⟨some v, pr, g, P, D, I⟩).result =
        .ok (.setp v) ∧
      (AlicatSerial.write ⟨none, false, true⟩ ⟨some v, pr, g, P, D, I⟩).trace = []) :=
  ⟨fun _ _ => ⟨rfl, rfl⟩, fun _ _ => rfl, rfl, fun _ _ _ => rfl,
    fun _ _ _ _ _ _ _ => ⟨rfl, rfl⟩, fun _ => ⟨rfl, rfl⟩, fun _ => rfl, rfl,
    fun _ _ _ => rfl, fun _ _ _ _ _ _ => ⟨rfl, rfl⟩⟩

/-- C6: against any fixed register image, the single 16-word block read of
`read(false)` decodes, at word offsets 0, 2, 4, 10, 12, 14, exactly the
values that six independent single-pair reads of the dedicated registers
(1349, 1351, 1353, 1359, 1361, 1363) obtain from the same image. -/
theorem C6_block_read_consistency :
    ∀ (image : Nat → Nat) (dec : Nat → ℚ) (conn : Bool),
      (Alicat.read dec ⟨some [blockResp image], conn, false⟩ false).result =
        .ok ⟨⟨conn,
          dec (pairAt image Alicat.REG_SETPOINT_F32),
          dec (pairAt image Alicat.REG_VALVEDRIVE_F32),
          dec (pairAt image Alicat.REG_PRESSURE_F32),
          dec (pairAt image Alicat.REG_TEMPERATURE_F32),
          dec (pairAt image Alicat.REG_VOL_FLOW_F32),
          dec (pairAt image Alicat.REG_MASS_FLOW_F32)⟩, none⟩ ∧
      (Alicat.read_setpoint dec
          ⟨some [pairResp image Alicat.REG_SETPOINT_F32], conn, false⟩).result =
        .ok (dec (pairAt image Alicat.REG_SETPOINT_F32)) ∧
      (Alicat.read_input_f32 dec
          ⟨some [pairResp image Alicat.REG_VALVEDRIVE_F32], conn, false⟩
          Alicat.REG_VALVEDRIVE_F32).result =
        .ok (dec (pairAt image Alicat.REG_VALVEDRIVE_F32)) ∧
      (Alicat.read_pressure dec
          ⟨some [pairResp image Alicat.REG_PRESSURE_F32], conn, false⟩).result =
        .ok (dec (pairAt image Alicat.REG_PRESSURE_F32)) ∧
      (Alicat.read_temperature dec
          ⟨some [pairResp image Alicat.REG_TEMPERATURE_F32], conn, false⟩).result =
        .ok (dec (pairAt image Alicat.REG_TEMPERATURE_F32)) ∧
      (Alicat.read_input_f32 dec
          ⟨some [pairResp image Alicat.REG_VOL_FLOW_F32], conn, false⟩
          Alicat.REG_VOL_FLOW_F32).result =
        .ok (dec (pairAt image Alicat.REG_VOL_FLOW_F32)) ∧
      (Alicat.read_mass_flow dec
          ⟨some [pairResp image Alicat.REG_MASS_FLOW_F32], conn, false⟩).result =
        .ok (dec (pairAt image Alicat.REG_MASS_FLOW_F32)) :=
  fun _ _ _ => ⟨rfl, rfl, rfl, rfl, rfl, rfl, rfl⟩

/-- C2 counterexample: on the ASCII transport, when only the D-gain exchange
fails (times out) while `R21` and `R23` answer lines that parse to gains 7
and 9, `read_pid` succeeds but returns `{P: 0, D: 0, I: 0}` — the two
successful gains do not carry their own values, contradicting the claimed
per-gain degradation. -/
theorem C2_counterexample :
    (AlicatSerial.read_pid ⟨some failDDev, true, false⟩).result = .ok ⟨0, 0, 0⟩ ∧
    AlicatSerial.gainOf (failDDev (.readReg 21)) = .ok 7 ∧
    AlicatSerial.gainOf (failDDev (.readReg 23)) = .ok 9 ∧
    (AlicatSerial.read_pid ⟨some failDDev, true, false⟩).result ≠ .ok ⟨7, 0, 9⟩ :=
  ⟨rfl, rfl, rfl, by decide⟩

/-- C2 amended: per-gain degradation to 0 with the other gains intact holds
on the binary transport for an error-flagged read of any one slot, and on
the ASCII transport for a malformed (single-field) response to any one
query; but an ASCII exchange that fails (raises) makes `read_pid` return
`{P: 0, D: 0, I: 0}` for all three gains — the call still succeeds rather
than raising in every case. -/
theorem C2_pid_read_degradation :
    (∀ (w0 w1 w2 : ModbusResponse) (el : List Nat) (p d i : Nat) (conn : Bool),
      (Alicat.read_pid
          ⟨some [w0, ⟨true, el⟩, w1, ⟨false, [d]⟩, w2, ⟨false, [i]⟩], conn, false⟩).result =
        .ok ⟨0, d, i⟩ ∧
      (Alicat.read_pid
          ⟨some [w0, ⟨false, [p]⟩, w1, ⟨true, el⟩, w2, ⟨false, [i]⟩], conn, false⟩).result =
        .ok ⟨p, 0, i⟩ ∧
      (Alicat.read_pid
          ⟨some [w0, ⟨false, [p]⟩, w1, ⟨false, [d]⟩, w2, ⟨true, el⟩], conn, false⟩).result =
        .ok ⟨p, d, 0⟩) ∧
    AlicatSerial.read_pid ⟨some malformedDDev, true, false⟩ =
      ⟨.ok ⟨7, 0, 9⟩, ⟨some malformedDDev, true, false⟩,
        [.readReg 21, .readReg 22, .readReg 23], []⟩ ∧
    AlicatSerial.read_pid ⟨some failDDev, true, false⟩ =
      ⟨.ok ⟨0, 0, 0⟩, ⟨some failDDev, true, false⟩,
        [.readReg 21, .readReg 22], [.errReadingPid]⟩ :=
  ⟨fun _ _ _ _ _ _ _ _ => ⟨rfl, rfl, rfl⟩, rfl, rfl⟩

/-! ## Connected-flag behaviour (helper lemmas) -/

theorem Alicat.read_pid_state_connected (st : AlicatSt) :
    (Alicat.read_pid st).state.connected = st.connected := by
  unfold Alicat.read_pid
  (repeat' split) <;> rfl

theorem Alicat.read_preserves_connected (dec : Nat → ℚ) (st : AlicatSt) (b : Bool) :
    (Alicat.read dec st b).state.connected = st.connected := by
  unfold Alicat.read
  dsimp only
  (repeat' split) <;> try rfl
  all_goals simp [Alicat.read_pid_state_connected]

theorem Alicat.set_flow_rate_state_connected (enc : ℚ → Nat) (st : AlicatSt) (v : ℚ) :
    (Alicat.set_flow_rate enc st v).state.connected = st.connected := by
  unfold Alicat.set_flow_rate Alicat.write_holding_f32
  (repeat' split) <;> rfl

theorem Alicat.set_pid_state_connected (st : AlicatSt) (P D I : Option Int) :
    (Alicat.set_pid st P D I).state.connected = st.connected := by
  unfold Alicat.set_pid
  (repeat' split) <;> rfl

theorem Alicat.write_state_connected (enc : ℚ → Nat) (st : AlicatSt) (d : WData) :
    (Alicat.write enc st d).state.connected = st.connected := by
  unfold Alicat.write
  (repeat' split) <;> first
    | rfl
    | simp [Alicat.set_flow_rate_state_connected, Alicat.set_pid_state_connected]

theorem Alicat.read_setpoint_state_connected (dec : Nat → ℚ) (st : AlicatSt) :
    (Alicat.read_setpoint dec st).state.connected = st.connected := by
  unfold Alicat.read_setpoint Alicat.read_holding_f32
  (repeat' split) <;> rfl

theorem AlicatSerial.set_flow_rate_state (st : SerialSt) (v : ℚ) :
    (AlicatSerial.set_flow_rate st v).state = st := by
  unfold AlicatSerial.set_flow_rate
  (repeat' split) <;> rfl

theorem AlicatSerial.set_pressure_state (st : SerialSt) (v : ℚ) :
    (AlicatSerial.set_pressure st v).state = st := by
  unfold AlicatSerial.set_pressure
  (repeat' split) <;> rfl

theorem AlicatSerial.set_gas_state (st : SerialSt) (g : String ⊕ Int) :
    (AlicatSerial.set_gas st g).state = st := by
  unfold AlicatSerial.set_gas
  dsimp only
  (repeat' split) <;> rfl

theorem AlicatSerial.set_pid_state (st : SerialSt) (P D I : Option Int) :
    (AlicatSerial.set_pid st P D I).state = st := by
  unfold AlicatSerial.set_pid
  (repeat' split) <;> rfl

theorem AlicatSerial.read_pid_state (st : SerialSt) :
    (AlicatSerial.read_pid st).state = st := by
  unfold AlicatSerial.read_pid
  (repeat' split) <;> rfl

theorem AlicatSerial.write_state (st : SerialSt) (d : WData) :
    (AlicatSerial.write st d).state = st := by
  unfold AlicatSerial.write
  (repeat' split) <;> first
    | rfl
    | simp [AlicatSerial.set_flow_rate_state, AlicatSerial.set_pressure_state,
        AlicatSerial.set_gas_state, AlicatSerial.set_pid_state]

theorem AlicatSerial.read_state_connected (st : SerialSt) (b : Bool) :
    (AlicatSerial.read st b).state.connected =
      (match (AlicatSerial.read st b).result with
       | .ok _ => st.connected
       | .error _ => false) := by
  unfold AlicatSerial.read
  dsimp only
  (repeat' split) <;> first
    | rfl
    | simp_all

/-- C3 counterexample: a transport failure during a Connected-state
`AlicatSerial.read` (the status exchange times out) raises — and the
driver's connected flag is `false` afterwards, not `true` as claimed:
`read`'s exception handler performs `self.connected = False` before
re-raising. -/
theorem C3_counterexample :
    (⟨some deadDev, true, false⟩ : SerialSt).connected = true ∧
    (AlicatSerial.read ⟨some deadDev, true, false⟩ false).result = .error .timeout ∧
    (AlicatSerial.read ⟨some deadDev, true, false⟩ false).state.connected = false :=
  ⟨rfl, rfl, rfl⟩

/-- C3 amended: on the binary driver every operation leaves the connected
flag unchanged whether it raises or not, and on the serial driver
`set_flow_rate`, `set_pressure`, `set_gas`, `set_pid`, `read_pid` and
`write` leave the whole state unchanged; but `AlicatSerial.read` clears the
connected flag exactly when it raises.  `close` always clears the flag on
both drivers. -/
theorem C3_connected_after_failure :
    (∀ (dec : Nat → ℚ) (st : AlicatSt) (b : Bool),
      (Alicat.read dec st b).state.connected = st.connected) ∧
    (∀ (enc : ℚ → Nat) (st : AlicatSt) (v : ℚ),
      (Alicat.set_flow_rate enc st v).state.connected = st.connected) ∧
    (∀ st : AlicatSt, (Alicat.read_pid st).state.connected = st.connected) ∧
    (∀ (st : AlicatSt) (P D I : Option Int),
      (Alicat.set_pid st P D I).state.connected = st.connected) ∧
    (∀ (enc : ℚ → Nat) (st : AlicatSt) (d : WData),
      (Alicat.write enc st d).state.connected = st.connected) ∧
    (∀ (dec : Nat → ℚ) (st : AlicatSt),
      (Alicat.read_setpoint dec st).state.connected = st.connected) ∧
    (∀ (st : SerialSt) (v : ℚ), (AlicatSerial.set_flow_rate st v).state = st) ∧
    (∀ (st : SerialSt) (v : ℚ), (AlicatSerial.set_pressure st v).state = st) ∧
    (∀ (st : SerialSt) (g : String ⊕ Int), (AlicatSerial.set_gas st g).state = st) ∧
    (∀ (st : SerialSt) (P D I : Option Int), (AlicatSerial.set_pid st P D I).state = st) ∧
    (∀ st : SerialSt, (AlicatSerial.read_pid st).state = st) ∧
    (∀ (st : SerialSt) (d : WData), (AlicatSerial.write st d).state = st) ∧
    (∀ (st : SerialSt) (b : Bool),
      (AlicatSerial.read st b).state.connected =
        (match (AlicatSerial.read st b).result with
         | .ok _ => st.connected
         | .error _ => false)) ∧
    (∀ st : AlicatSt, (Alicat.close st).connected = false) ∧
    (∀ st : SerialSt, (AlicatSerial.close st).connected = false) :=
  ⟨Alicat.read_preserves_connected, Alicat.set_flow_rate_state_connected,
    Alicat.read_pid_state_connected, Alicat.set_pid_state_connected,
    Alicat.write_state_connected, Alicat.read_setpoint_state_connected,
    AlicatSerial.set_flow_rate_state, AlicatSerial.set_pressure_state,
    AlicatSerial.set_gas_state, AlicatSerial.set_pid_state,
    AlicatSerial.read_pid_state, AlicatSerial.write_state,
    AlicatSerial.read_state_connected, fun _ => rfl, fun _ => rfl⟩

/-- C4 counterexample: `AlicatSerial.set_flow_rate(1500.0)` (out of the
advisory `[0, 1000]` range) transmits the value and returns the success
acknowledgement, but its only log event is the info-level success message —
no warning is emitted on the ASCII transport, contradicting the claim that
both transports warn. -/
theorem C4_counterexample :
    (AlicatSerial.set_flow_rate ⟨some liveDev, true, false⟩ 1500).result = .ok 1500 ∧
    (AlicatSerial.set_flow_rate ⟨some liveDev, true, false⟩ 1500).trace = [SCmd.setp 1500] ∧
    (AlicatSerial.set_flow_rate ⟨some liveDev, true, false⟩ 1500).logs =
      [.infoSetpointSet 1500] ∧
    noWarnings (AlicatSerial.set_flow_rate ⟨some liveDev, true, false⟩ 1500).logs = true :=
  ⟨rfl, rfl, rfl, rfl⟩

/-- C4 amended: `set_flow_rate(v)` with any `v` — in particular out-of-range
values — transmits the value to the device and returns the success
acknowledgement with `v` on both transports, never raising on account of the
range; the binary transport emits a warning exactly when `v` is outside
`[0, 1000]`, while the ASCII transport performs no range check and logs only
the info-level success message. -/
theorem C4_setpoint_range_advisory :
    ∀ (enc : ℚ → Nat) (v : ℚ),
      (Alicat.set_flow_rate enc ⟨some [okResp], true, false⟩ v).result = .ok v ∧
      (Alicat.set_flow_rate enc ⟨some [okResp], true, false⟩ v).trace =
        [MCall.writeRegs Alicat.REG_SETPOINT_F32
          [((float_to_regs (enc v)).1 : Int), ((float_to_regs (enc v)).2 : Int)]] ∧
      (LogEv.warnFlowRange v ∈ (Alicat.set_flow_rate enc ⟨some [okResp], true, false⟩ v).logs ↔
        ¬(Alicat.SETPOINT_MIN ≤ v ∧ v ≤ Alicat.SETPOINT_MAX)) ∧
      AlicatSerial.set_flow_rate ⟨some liveDev, true, false⟩ v =
        ⟨.ok v, ⟨some liveDev, true, false⟩, [.setp v], [.infoSetpointSet v]⟩ := by
  intro enc v
  refine ⟨rfl, rfl, ?_, rfl⟩
  by_cases h : Alicat.SETPOINT_MIN ≤ v ∧ v ≤ Alicat.SETPOINT_MAX <;>
    simp [Alicat.set_flow_rate, Alicat.write_holding_f32, okResp, popResp, h]

/-- C5 counterexample: `AlicatSerial.read_pid` invoked with no port held
(before `initialize` / after `close`, simulation off) does not fail with
`NotConnected` — the guard error raised inside `_command` is caught by
`_read_pid_unlocked`'s blanket handler and the call succeeds with all-zero
gains. -/
theorem C5_counterexample :
    (AlicatSerial.read_pid ⟨none, false, false⟩).result = .ok ⟨0, 0, 0⟩ ∧
    (AlicatSerial.read_pid ⟨none, false, false⟩).trace = [] ∧
    (AlicatSerial.read_pid ⟨none, false, false⟩).result ≠ .error .notConnected :=
  ⟨rfl, rfl, by decide⟩

/-- C5 amended: with simulation off and no client/port held, every public
I/O operation fails with `NotConnected` before issuing any transport
exchange — except `AlicatSerial.read_pid`, which swallows the guard error
and succeeds with all-zero gains, `AlicatSerial.set_pid` with no gains
provided, and `write` with no recognized key, which return success results
(also without any exchange). -/
theorem C5_not_connected_guard :
    (∀ (dec : Nat → ℚ) (b : Bool),
      (Alicat.read dec ⟨none, false, false⟩ b).result = .error .notConnected ∧
      (Alicat.read dec ⟨none, false, false⟩ b).trace = []) ∧
    (∀ dec : Nat → ℚ,
      (Alicat.read_setpoint dec ⟨none, false, false⟩).result = .error .notConnected ∧
      (Alicat.read_setpoint dec ⟨none, false, false⟩).trace = []) ∧
    (∀ dec : Nat → ℚ,
      (Alicat.read_mass_flow dec ⟨none, false, false⟩).result = .error .notConnected) ∧
    (∀ dec : Nat → ℚ,
      (Alicat.read_pressure dec ⟨none, false, false⟩).result = .error .notConnected) ∧
    (∀ dec : Nat → ℚ,
      (Alicat.read_temperature dec ⟨none, false, false⟩).result = .error .notConnected) ∧
    (∀ (enc : ℚ → Nat) (v : ℚ),
      (Alicat.set_flow_rate enc ⟨none, false, false⟩ v).result = .error .notConnected ∧
      (Alicat.set_flow_rate enc ⟨none, false, false⟩ v).trace = []) ∧
    (Alicat.read_pid ⟨none, false, false⟩).result = .error .notConnected ∧
    (Alicat.read_pid ⟨none, false, false⟩).trace = [] ∧
    (∀ P D I : Option Int,
      (Alicat.set_pid ⟨none, false, false⟩ P D I).result = .error .notConnected) ∧
    (∀ (enc : ℚ → Nat) (v : ℚ) (pr : Option ℚ) (g : Option (String ⊕ Int))
        (P D I : Option Int),
      (Alicat.write enc ⟨none, false, false⟩ ⟨some v, pr, g, P, D, I⟩).result =
        .error .notConnected) ∧
    (∀ (enc : ℚ → Nat) (p : Int),
      (Alicat.write enc ⟨none, false, false⟩ ⟨none, none, none, some p, none, none⟩).result =
        .error .notConnected) ∧
    (∀ enc : ℚ → Nat,
      (Alicat.write enc ⟨none, false, false⟩ ⟨none, none, none, none, none, none⟩).result =
        .ok .noOp) ∧
    (∀ b : Bool,
      (AlicatSerial.read ⟨none, false, false⟩ b).result = .error .notConnected ∧
      (AlicatSerial.read ⟨none, false, false⟩ b).trace = []) ∧
    (∀ v : ℚ,
      (AlicatSerial.set_flow_rate ⟨none, false, false⟩ v).result = .error .notConnected ∧
      (AlicatSerial.set_flow_rate ⟨none, false, false⟩ v).trace = []) ∧
    (∀ v : ℚ,
      (AlicatSerial.set_pressure ⟨none, false, false⟩ v).result = .error .notConnected) ∧
    (∀ g : String ⊕ Int,
      (AlicatSerial.set_gas ⟨none, false, false⟩ g).result = .error .notConnected) ∧
    (∀ (p : Int) (D I : Option Int),
      (AlicatSerial.set_pid ⟨none, false, false⟩ (some p) D I).result =
        .error .notConnected) ∧
    AlicatSerial.set_pid ⟨none, false, false⟩ none none none =
      ⟨.ok ⟨none, none, none⟩, ⟨none, false, false⟩, [], []⟩ ∧
    AlicatSerial.read_pid ⟨none, false, false⟩ =
      ⟨.ok ⟨0, 0, 0⟩, ⟨none, false, false⟩, [], [.errReadingPid]⟩ ∧
    (∀ (v : ℚ) (pr : Option ℚ) (g : Option (String ⊕ Int)) (P D I : Option Int),
      (AlicatSerial.write ⟨none, false, false⟩ ⟨some v, pr, g, P, D, I⟩).result =
        .error .notConnected) ∧
    (AlicatSerial.write ⟨none, false, false⟩ ⟨none, none, none, none, none, none⟩).result =
      .ok .noOp :=
  ⟨fun _ _ => ⟨rfl, rfl⟩, fun _ => ⟨rfl, rfl⟩, fun _ => rfl, fun _ => rfl, fun _ => rfl,
    fun _ _ => ⟨rfl, rfl⟩, rfl, rfl, fun _ _ _ => rfl, fun _ _ _ _ _ _ _ => rfl,
    fun _ _ => rfl, fun _ => rfl, fun _ => ⟨rfl, rfl⟩, fun _ => ⟨rfl, rfl⟩, fun _ => rfl,
    fun _ => rfl, fun _ _ _ => rfl, rfl, rfl, fun _ _ _ _ _ _ => rfl, rfl⟩

/-- C7 counterexample: on the binary driver (dummy mode, so the executed
setter is total), a field map containing `pressure` and `P` executes
`set_pid` — not a pressure command and not a no-op — although the claimed
fixed priority order places `pressure` ahead of `P`/`D`/`I` (on this
transport a pressure command would be unrecognized, hence a no-op). -/
theorem C7_counterexample :
    (Alicat.write zeroEnc ⟨none, false, true⟩
        ⟨none, some 5, none, some 3, none, none⟩).result =
      .ok (.pid ⟨some 3, none, none⟩) ∧
    (Alicat.write zeroEnc ⟨none, false, true⟩
        ⟨none, some 5, none, some 3, none, none⟩).result ≠ .ok .noOp ∧
    (Alicat.write zeroEnc ⟨none, false, true⟩
        ⟨none, some 5, none, some 3, none, none⟩).result ≠ .ok (.pres 5) :=
  ⟨rfl, by decide, by decide⟩

/-- C7 amended: `write` resolves its field map by first match against the
keys each driver recognizes — `setpoint`, `pressure`, `gas`, `P`/`D`/`I` on
the ASCII driver, but only `setpoint` then `P`/`D`/`I` on the binary driver,
where `pressure` and `gas` keys are not dispatch steps at all (they fall
through; a map with `pressure` and `P` executes `set_pid`).  On both
drivers a map with `setpoint` and `P` executes only `set_flow_rate` (one
setpoint transmission, no PID write), and a map with no recognized key
returns the no-op result rather than raising. -/
theorem C7_write_dispatch :
    (∀ (enc : ℚ → Nat) (sp : ℚ) (pr : Option ℚ) (g : Option (String ⊕ Int))
        (P D I : Option Int),
      (Alicat.write enc ⟨none, false, true⟩ ⟨some sp, pr, g, P, D, I⟩).result =
        .ok (.setp sp) ∧
      (AlicatSerial.write ⟨none, false, true⟩ ⟨some sp, pr, g, P, D, I⟩).result =
        .ok (.setp sp)) ∧
    (∀ (p : ℚ) (g : Option (String ⊕ Int)) (P D I : Option Int),
      (AlicatSerial.write ⟨none, false, true⟩ ⟨none, some p, g, P, D, I⟩).result =
        .ok (.pres p)) ∧
    (∀ (g : String ⊕ Int) (P D I : Option Int),
      (AlicatSerial.write ⟨none, false, true⟩ ⟨none, none, some g, P, D, I⟩).result =
        .ok (.gas g)) ∧
    (∀ (enc : ℚ → Nat) (p : Int) (D I : Option Int),
      (Alicat.write enc ⟨none, false, true⟩ ⟨none, none, none, some p, D, I⟩).result =
        .ok (.pid ⟨some p, D, I⟩) ∧
      (AlicatSerial.write ⟨none, false, true⟩ ⟨none, none, none, some p, D, I⟩).result =
        .ok (.pid ⟨some p, D, I⟩)) ∧
    (∀ (enc : ℚ → Nat) (p : ℚ) (g : String ⊕ Int),
      (Alicat.write enc ⟨none, false, true⟩ ⟨none, some p, some g, none, none, none⟩).result =
        .ok .noOp) ∧
    (∀ enc : ℚ → Nat,
      (Alicat.write enc ⟨none, false, true⟩ ⟨none, none, none, none, none, none⟩).result =
        .ok .noOp) ∧
    (AlicatSerial.write ⟨none, false, true⟩ ⟨none, none, none, none, none, none⟩).result =
      .ok .noOp ∧
    (∀ (enc : ℚ → Nat) (script : List ModbusResponse) (sp : ℚ) (p : Int),
      (Alicat.write enc ⟨some script, true, false⟩
          ⟨some sp, none, none, some p, none, none⟩).trace =
        [MCall.writeRegs Alicat.REG_SETPOINT_F32
          [((float_to_regs (enc sp)).1 : Int), ((float_to_regs (enc sp)).2 : Int)]]) ∧
    (∀ (dev : SCmd → String) (sp : ℚ) (p : Int),
      (AlicatSerial.write ⟨some dev, true, false⟩
          ⟨some sp, none, none, some p, none, none⟩).trace = [SCmd.setp sp]) := by
  refine ⟨fun _ _ _ _ _ _ _ => ⟨rfl, rfl⟩, fun _ _ _ _ _ => rfl, fun _ _ _ _ => rfl,
    fun _ _ _ _ => ⟨rfl, rfl⟩, fun _ _ _ => rfl, fun _ => rfl, rfl, ?_, ?_⟩
  · intro enc script sp p
    unfold Alicat.write Alicat.set_flow_rate Alicat.write_holding_f32
    dsimp only
    cases script <;> (repeat' split) <;> first | rfl | simp_all
  · intro dev sp p
    unfold AlicatSerial.write AlicatSerial.set_flow_rate AlicatSerial.command
    dsimp only
    (repeat' split) <;> first | rfl | simp_all
